/-
  Verification development for the mailgun-optin-cli bulk-send pipeline.

  Shallow embedding of the JavaScript sources:
    - template-processor.js : processTemplate, processTemplateForSubscriber
    - mailgun-client.js     : sendEmail, sendBulkEmails (with its local processTemplate)
    - csv-parser.js         : validateEmail, validateCSVStructure (skip-and-continue variant)
    - confirmation-links.js : generateTokenForSubscriber (HMAC-SHA256 based)
    - logger.js             : getLogStats

  Conventions of the embedding:
    - JavaScript strings are Lean String; absent object fields are Option.none;
      a field holding undefined is also modelled as Option.none where the two
      are indistinguishable to the code under study.
    - JavaScript objects with a dynamic column set (CSV rows, subscribers) are
      association lists List (String × String); lookup returns the first match.
    - Data contexts for template rendering are functions String → Option String.
    - JavaScript numbers are modelled as Rat where fractional arithmetic
      occurs (rate limits, success rates); the inputs involved are small
      integers, where double-precision arithmetic is exact up to the final
      division/rounding, so the rational model agrees with the float
      semantics on the inputs used in the theorems below.
    - Asynchronous effects are made observable as explicit traces: the bulk
      dispatcher returns, next to its result list, the list of rate-limit
      delays it awaited, the list of message payloads handed to the external
      provider, and the list of progress-callback invocations it performed.
    - The external provider call mailgun.messages.create is a parameter
      (an oracle String → MessageData → Except String MgResponse); a thrown
      rejection is Except.error with the error message.
-/
import Mathlib

namespace Mailer

/-! ## JavaScript character and string primitives -/

/-- Left brace character, written via its code point. -/
def lbrace : Char := Char.ofNat 123

/-- Right brace character, written via its code point. -/
def rbrace : Char := Char.ofNat 125

/-- JavaScript regex word character class (ASCII letters, digits, underscore),
    as used by the placeholder pattern in both processTemplate functions. -/
def jsWordChar (c : Char) : Bool :=
  (65 ≤ c.toNat && c.toNat ≤ 90) || (97 ≤ c.toNat && c.toNat ≤ 122) ||
  (48 ≤ c.toNat && c.toNat ≤ 57) || c.toNat = 95

/-- Whitespace recognized by JavaScript String.prototype.trim, restricted to
    the code points that occur in this development (ASCII whitespace, NBSP,
    line/paragraph separators, BOM). -/
def jsWhitespace (c : Char) : Bool :=
  c.toNat = 9 || c.toNat = 10 || c.toNat = 11 || c.toNat = 12 || c.toNat = 13 ||
  c.toNat = 32 || c.toNat = 160 || c.toNat = 8232 || c.toNat = 8233 || c.toNat = 65279

/-- String.prototype.trim: drop leading and trailing whitespace. -/
def jsTrim (s : String) : String :=
  String.mk (((s.data.dropWhile jsWhitespace).reverse.dropWhile jsWhitespace).reverse)

/-- One character of String.prototype.toLowerCase, for the ASCII range
    (the only range exercised by the code under study). -/
def jsCharToLower (c : Char) : Char :=
  if 65 ≤ c.toNat ∧ c.toNat ≤ 90 then Char.ofNat (c.toNat + 32) else c

/-- String.prototype.toLowerCase (ASCII model). -/
def jsToLower (s : String) : String :=
  String.mk (s.data.map jsCharToLower)

/-- Truthiness of a JavaScript string-or-undefined value:
    undefined and the empty string are falsy. -/
def truthy : Option String → Bool
  | none => false
  | some s => s ≠ ""

/-! ## Template rendering: the replace(/\x7b(\w+)\x7d/g, (m, key) => data[key] || "") scanner

The JavaScript engine scans left to right for the leftmost match of the
pattern: a left brace, one or more word characters, a right brace.  A matched
placeholder is replaced by data[key] || "" and scanning resumes after the
match; a position where no match starts has its character copied verbatim.
`substScan` implements exactly this as a one-pass state machine over the
character list: the second argument is `none` outside any candidate match and
`some w` when a left brace followed by the reversed word characters `w` has
been consumed but not yet closed. -/

/-- Data context: JavaScript data object mapping identifiers to strings. -/
def Ctx := String → Option String

/-- Replacement text for a matched placeholder key: data[key] || "". -/
def substVal (ctx : Ctx) (key : String) : String :=
  (ctx key).getD ""

def substScan (ctx : Ctx) : List Char → Option (List Char) → List Char
  | [], none => []
  | [], some w => lbrace :: w.reverse
  | c :: rest, none =>
    if c = lbrace then substScan ctx rest (some [])
    else c :: substScan ctx rest none
  | c :: rest, some w =>
    if c = rbrace then
      if w = [] then lbrace :: rbrace :: substScan ctx rest none
      else (substVal ctx (String.mk w.reverse)).data ++ substScan ctx rest none
    else if jsWordChar c then substScan ctx rest (some (c :: w))
    else if c = lbrace then (lbrace :: w.reverse) ++ substScan ctx rest (some [])
    else (lbrace :: w.reverse ++ [c]) ++ substScan ctx rest none

/-- template.replace on a whole string. -/
def substStr (s : String) (ctx : Ctx) : String :=
  String.mk (substScan ctx s.data none)

/-- JavaScript values, as far as the template processors distinguish them. -/
inductive JSVal where
  | str (s : String)
  | num (n : Int)
  | bool (b : Bool)
  | null
  | undefined
  deriving DecidableEq, Repr

/-- processTemplate from template-processor.js (lines 312-324): null and
    undefined pass through, non-strings pass through, strings get the global
    placeholder replacement.  Data values are strings (CSV fields and the
    confirmation token), for which data[key] || "" coincides with
    (ctx key).getD "". -/
def processTemplate (template : JSVal) (ctx : Ctx) : JSVal :=
  match template with
  | .str s => .str (substStr s ctx)
  | v => v

/-! ## Compositional specification of placeholder substitution

A template string is presented as a list of segments: literal runs and
placeholders.  Flattening produces the concrete template text; rendering
produces what the spec demands of substitution (value when the identifier is
bound, empty string when absent). -/

inductive Seg where
  | lit (s : String)
  | ph (id : String)
  deriving DecidableEq, Repr

/-- Concrete text of one segment. -/
def Seg.flat : Seg → List Char
  | .lit s => s.data
  | .ph id => lbrace :: id.data ++ [rbrace]

/-- Spec-side rendering of one segment. -/
def Seg.rendered (ctx : Ctx) : Seg → List Char
  | .lit s => s.data
  | .ph id => ((ctx id).getD "").data

/-- Concrete text of a segment list, as a string. -/
def flatSegs (segs : List Seg) : String :=
  String.mk (segs.foldr (fun seg acc => seg.flat ++ acc) [])

/-- Spec-side rendering of a segment list, as a string. -/
def renderSegs (segs : List Seg) (ctx : Ctx) : String :=
  String.mk (segs.foldr (fun seg acc => seg.rendered ctx ++ acc) [])

/-- A segment is unambiguous when literals contain no left brace and
    placeholder identifiers are nonempty words. -/
def Seg.ok : Seg → Prop
  | .lit s => ∀ c ∈ s.data, c ≠ lbrace
  | .ph id => id.data ≠ [] ∧ ∀ c ∈ id.data, jsWordChar c

instance : DecidablePred Seg.ok := fun seg =>
  match seg with
  | .lit s => inferInstanceAs (Decidable (∀ c ∈ s.data, c ≠ lbrace))
  | .ph i => inferInstanceAs (Decidable (i.data ≠ [] ∧ ∀ c ∈ i.data, jsWordChar c))

/-! Scanner lemmas relating the one-pass machine to the segment semantics. -/

lemma jsWordChar_ne_lbrace {c : Char} (h : jsWordChar c) : c ≠ lbrace := by
  intro he; subst he; simp [jsWordChar, lbrace] at h

lemma jsWordChar_ne_rbrace {c : Char} (h : jsWordChar c) : c ≠ rbrace := by
  intro he; subst he; simp [jsWordChar, rbrace] at h

/-- Copying a literal run that contains no left brace. -/
lemma substScan_append_lit (ctx : Ctx) (s rest : List Char)
    (h : ∀ c ∈ s, c ≠ lbrace) :
    substScan ctx (s ++ rest) none = s ++ substScan ctx rest none := by
  induction s with
  | nil => rfl
  | cons c s ih =>
    have hc : c ≠ lbrace := h c (by simp)
    simp only [List.cons_append, substScan, if_neg hc, List.append_eq]
    rw [ih (fun d hd => h d (by simp [hd]))]

/-- Consuming word characters inside an open placeholder accumulates them. -/
lemma substScan_word_acc (ctx : Ctx) (id rest : List Char) (w : List Char)
    (h : ∀ c ∈ id, jsWordChar c) :
    substScan ctx (id ++ rest) (some w) = substScan ctx rest (some (id.reverse ++ w)) := by
  induction id generalizing w with
  | nil => rfl
  | cons c s ih =>
    have hc : jsWordChar c := h c (by simp)
    simp only [List.cons_append, substScan, if_neg (jsWordChar_ne_rbrace hc), if_pos hc,
      List.append_eq]
    rw [ih _ (fun d hd => h d (by simp [hd]))]
    simp

/-- A complete placeholder is replaced by its context value. -/
lemma substScan_ph (ctx : Ctx) (id rest : List Char)
    (hne : id ≠ []) (h : ∀ c ∈ id, jsWordChar c) :
    substScan ctx (lbrace :: id ++ rbrace :: rest) none =
      ((ctx (String.mk id)).getD "").data ++ substScan ctx rest none := by
  have h1 : substScan ctx (lbrace :: id ++ rbrace :: rest) none =
      substScan ctx (id ++ rbrace :: rest) (some []) := by
    simp [substScan]
  rw [h1, substScan_word_acc ctx id _ [] h]
  have h2 : id.reverse ++ [] ≠ [] := by simpa using hne
  simp only [substScan, if_pos rfl, if_neg h2]
  simp [substVal]

/-- The scanner realizes the compositional substitution semantics on any
    unambiguous segment decomposition. -/
lemma substScan_segs (ctx : Ctx) (segs : List Seg) (h : ∀ seg ∈ segs, seg.ok) :
    substScan ctx (segs.foldr (fun seg acc => seg.flat ++ acc) []) none =
      segs.foldr (fun seg acc => seg.rendered ctx ++ acc) [] := by
  induction segs with
  | nil => rfl
  | cons seg segs ih =>
    have hseg : seg.ok := h seg (by simp)
    have hrest : ∀ s ∈ segs, s.ok := fun s hs => h s (by simp [hs])
    cases seg with
    | lit s =>
      have e1 : (Seg.lit s :: segs).foldr (fun seg acc => seg.flat ++ acc) [] =
          s.data ++ segs.foldr (fun seg acc => seg.flat ++ acc) [] := rfl
      have e2 : (Seg.lit s :: segs).foldr (fun seg acc => seg.rendered ctx ++ acc) [] =
          s.data ++ segs.foldr (fun seg acc => seg.rendered ctx ++ acc) [] := rfl
      rw [e1, e2, substScan_append_lit ctx _ _ hseg, ih hrest]
    | ph i =>
      obtain ⟨hne, hw⟩ := hseg
      have e1 : (Seg.ph i :: segs).foldr (fun seg acc => seg.flat ++ acc) [] =
          lbrace :: i.data ++ rbrace :: segs.foldr (fun seg acc => seg.flat ++ acc) [] := by
        show (lbrace :: i.data ++ [rbrace]) ++ _ = _
        simp
      have e2 : (Seg.ph i :: segs).foldr (fun seg acc => seg.rendered ctx ++ acc) [] =
          ((ctx i).getD "").data ++
            segs.foldr (fun seg acc => seg.rendered ctx ++ acc) [] := rfl
      rw [e1, e2, substScan_ph ctx _ _ hne hw, ih hrest]

/-- substStr on a flattened segment list equals the rendered segment list. -/
lemma substStr_segs (ctx : Ctx) (segs : List Seg) (h : ∀ seg ∈ segs, seg.ok) :
    substStr (flatSegs segs) ctx = renderSegs segs ctx := by
  simp only [substStr, flatSegs, renderSegs]
  exact congrArg String.mk (substScan_segs ctx segs h)


/-! ## Email validator (csv-parser.js, validateEmail) -/

/-- ASCII alphanumeric, the [a-zA-Z0-9] class of the email regex. -/
def isAlnumA (c : Char) : Bool :=
  (48 ≤ c.toNat && c.toNat ≤ 57) || (65 ≤ c.toNat && c.toNat ≤ 90) ||
  (97 ≤ c.toNat && c.toNat ≤ 122)

/-- Character class of the regex local part: alphanumerics plus the
    punctuation set, written by code point. -/
def isLocalChar (c : Char) : Bool :=
  isAlnumA c ||
  [33, 35, 36, 37, 38, 39, 42, 43, 45, 46, 47, 61, 63, 94, 95, 96,
   123, 124, 125, 126].contains c.toNat

/-- A domain label of the regex: 1 to 63 characters over alphanumerics and
    hyphen, first and last character alphanumeric. -/
def labelOK (l : List Char) : Bool :=
  1 ≤ l.length && l.length ≤ 63 &&
  l.all (fun d => isAlnumA d || d.toNat = 45) &&
  (match l.head? with | some c => isAlnumA c | none => false) &&
  (match l.getLast? with | some c => isAlnumA c | none => false)

/-- String.prototype.includes for the two-dot substring check. -/
def hasDoubleDot : List Char → Bool
  | [] => false
  | [_] => false
  | a :: b :: rest =>
    (a = Char.ofNat 46 && b = Char.ofNat 46) || hasDoubleDot (b :: rest)

/-- Split a character list at every occurrence of a separator, the semantics
    of String.prototype.split with a one-character separator. -/
def splitOnChar (sep : Char) : List Char → List (List Char)
  | [] => [[]]
  | c :: rest =>
    match splitOnChar sep rest with
    | [] => [[c]]
    | h :: t => if c = sep then [] :: h :: t else (c :: h) :: t

/-- The anchored email regex of csv-parser.js, as a decidable predicate:
    one or more local-part characters, an at sign, then dot-separated
    domain labels. -/
def emailRegexTest (s : String) : Bool :=
  match splitOnChar (Char.ofNat 64) s.data with
  | [localPart, domain] =>
    localPart ≠ [] && localPart.all isLocalChar &&
    (splitOnChar (Char.ofNat 46) domain).all labelOK
  | _ => false

/-- validateEmail from csv-parser.js: rejects undefined and empty input,
    consecutive dots, a leading or trailing dot, any space, and anything the
    anchored regex (tested on the trimmed string) rejects. -/
def validateEmail (email : Option String) : Bool :=
  match email with
  | none => false
  | some s =>
    if s = "" then false
    else if hasDoubleDot s.data then false
    else if (match s.data.head? with | some c => c == Char.ofNat 46 | none => false) then false
    else if (match s.data.getLast? with | some c => c == Char.ofNat 46 | none => false) then
      false
    else if s.data.contains (Char.ofNat 32) then false
    else emailRegexTest (jsTrim s)

/-! ## Subscriber ingestion (csv-parser.js, validateCSVStructure,
    skip-and-continue variant) -/

/-- A CSV row or subscriber object: association list of column name to
    string value; lookup takes the first binding, as JavaScript property
    access on objects with unique keys. -/
abbrev Row := List (String × String)

/-- JavaScript property access row[k], undefined when the key is absent. -/
def lookupField (r : Row) (k : String) : Option String :=
  (r.find? (fun p => p.1 == k)).map (fun p => p.2)

/-- Object.prototype.hasOwnProperty.call(row, k). -/
def hasField (r : Row) (k : String) : Bool :=
  r.any (fun p => p.1 == k)

/-- JavaScript a || b on string-or-undefined values. -/
def jsOrStr (a b : Option String) : Option String :=
  if truthy a then a else b

/-- (row.Email || row.email)?.trim() . -/
def rowEmailTrimmed (r : Row) : Option String :=
  (jsOrStr (lookupField r "Email") (lookupField r "email")).map jsTrim

/-- email || "empty": the string recorded in a skip entry. -/
def recordedEmail (e : Option String) : String :=
  if truthy e then e.getD "" else "empty"

structure SkippedEmail where
  rowNumber : Nat
  email : String
  reason : String
  deriving DecidableEq, Repr

structure CSVResult where
  validData : List Row
  skippedEmails : List SkippedEmail
  totalRows : Nat
  validRows : Nat
  skippedRows : Nat
  deriving DecidableEq, Repr

/-- The row loop of validateCSVStructure: i is the 0-based index of the
    first row of the remaining list; valid rows are kept in order, invalid
    rows produce a skip entry with 1-based row number. -/
def csvFilterLoop (i : Nat) : List Row → List Row × List SkippedEmail
  | [] => ([], [])
  | row :: rest =>
    let email := rowEmailTrimmed row
    let tail := csvFilterLoop (i + 1) rest
    if validateEmail email then (row :: tail.1, tail.2)
    else (tail.1,
      { rowNumber := i + 1, email := recordedEmail email,
        reason := "Invalid email format" } :: tail.2)

/-- validateCSVStructure from csv-parser.js (skip-and-continue variant):
    empty input and a missing email column are structural errors; otherwise
    rows with invalid emails are skipped and the rest kept. -/
def validateCSVStructure (data : List Row) : Except String CSVResult :=
  match data with
  | [] => .error "CSV file is empty"
  | firstRow :: _ =>
    let emailField := jsOrStr (lookupField firstRow "Email") (lookupField firstRow "email")
    if !truthy emailField && !hasField firstRow "Email" && !hasField firstRow "email" then
      .error "CSV must contain an \"Email\" or \"email\" column"
    else
      let filtered := csvFilterLoop 0 data
      .ok { validData := filtered.1, skippedEmails := filtered.2,
            totalRows := data.length, validRows := filtered.1.length,
            skippedRows := filtered.2.length }

/-- Spec-side description of the skip list produced from index i onward. -/
def specSkipped (i : Nat) (data : List Row) : List SkippedEmail :=
  ((List.enumFrom i data).filter
      (fun p => !validateEmail (rowEmailTrimmed p.2))).map
    (fun p => { rowNumber := p.1 + 1, email := recordedEmail (rowEmailTrimmed p.2),
                reason := "Invalid email format" })

lemma csvFilterLoop_spec (i : Nat) (data : List Row) :
    csvFilterLoop i data =
      (data.filter (fun r => validateEmail (rowEmailTrimmed r)), specSkipped i data) := by
  induction data generalizing i with
  | nil => rfl
  | cons row rest ih =>
    simp only [csvFilterLoop, ih (i + 1), specSkipped, List.enumFrom, List.filter]
    cases hv : validateEmail (rowEmailTrimmed row) with
    | true => simp [hv, specSkipped]
    | false => simp [hv, specSkipped]


/-! ## Result logger statistics (logger.js, getLogStats) -/

/-- One parsed row of the result log CSV. -/
structure LogEntry where
  timestamp : String
  email : String
  status : String
  message_id : String
  error : String
  deriving DecidableEq, Repr

structure LogStats where
  total : Nat
  successful : Nat
  failed : Nat
  successRate : ℚ
  deriving DecidableEq, Repr

/-- JavaScript Math.round: round half toward positive infinity. -/
def jsRound (q : ℚ) : ℤ := ⌊q + 1 / 2⌋

/-- getLogStats from logger.js: total, count of entries whose status is the
    string success, failed as the difference, and the success rate as a
    percentage rounded to two decimal places (0 for an empty log). -/
def getLogStats (logData : List LogEntry) : LogStats :=
  let total := logData.length
  let successful := (logData.filter (fun entry => entry.status == "success")).length
  let failed := total - successful
  let successRate : ℚ :=
    if 0 < total then
      (jsRound (((successful : ℚ) / (total : ℚ)) * 100 * 100) : ℚ) / 100
    else 0
  { total := total, successful := successful, failed := failed, successRate := successRate }

/-- Rounding a rational to two decimal places, the shape the spec's
    successRate actually takes. -/
def roundTo2 (q : ℚ) : ℚ := (jsRound (q * 100) : ℚ) / 100


/-! ## Claim C5: ingestion filtering (corrected) -/

/-- C5 (claim as stated is false): on the one-row input whose email field is
    the empty string, the skip entry records the literal string "empty", not
    the row's email; so the skip record is not made of the row number, the
    email and the reason alone, as the claim asserts. -/
theorem c5_counterexample :
    (validateCSVStructure [[("email", "")]]).toOption.map CSVResult.skippedEmails =
      some [{ rowNumber := 1, email := "empty", reason := "Invalid email format" }] ∧
    (validateCSVStructure [[("email", "")]]).toOption.map CSVResult.skippedEmails ≠
      some [{ rowNumber := 1, email := "", reason := "Invalid email format" }] := by
  constructor
  · decide
  · decide

/-- C5 (amended): for every non-empty row list whose first row has an Email
    or email column, validateCSVStructure succeeds (never fails as a whole);
    the valid rows are exactly the rows whose trimmed email passes
    validateEmail, kept in order; each invalid row is recorded in skipped
    with its 1-based row number, the reason "Invalid email format", and the
    trimmed email, except that a missing or empty email is recorded as the
    placeholder string "empty". -/
theorem c5_ingestion_skips_invalid (firstRow : Row) (rest : List Row)
    (hcol : hasField firstRow "Email" = true ∨ hasField firstRow "email" = true) :
    validateCSVStructure (firstRow :: rest) =
      Except.ok
        { validData :=
            (firstRow :: rest).filter (fun r => validateEmail (rowEmailTrimmed r)),
          skippedEmails := specSkipped 0 (firstRow :: rest),
          totalRows := (firstRow :: rest).length,
          validRows :=
            ((firstRow :: rest).filter (fun r => validateEmail (rowEmailTrimmed r))).length,
          skippedRows := (specSkipped 0 (firstRow :: rest)).length } := by
  have hcond : (!truthy (jsOrStr (lookupField firstRow "Email") (lookupField firstRow "email"))
      && !hasField firstRow "Email" && !hasField firstRow "email") = false := by
    rcases hcol with h | h <;> simp [h]
  simp only [validateCSVStructure, hcond, Bool.false_eq_true, if_false,
    csvFilterLoop_spec 0 (firstRow :: rest)]

/-- C5 witness: the three-row example of the spec, row 2 invalid. -/
theorem c5_ingestion_witness :
    validateCSVStructure
        [[("email", "john@example.com")], [("email", "not-an-email")],
         [("email", "jane@example.com")]] =
      Except.ok
        { validData := [[("email", "john@example.com")], [("email", "jane@example.com")]],
          skippedEmails := [{ rowNumber := 2, email := "not-an-email",
                              reason := "Invalid email format" }],
          totalRows := 3, validRows := 2, skippedRows := 1 } := by
  rw [c5_ingestion_skips_invalid _ _ (Or.inr (by decide))]
  rfl

/-! ## Claims C8 and C10: log statistics -/

/-- C8 (claim as stated is false): on a log of three entries with one
    success, the computed success rate is 33.33 (rounded to two decimals),
    not the exact successful/total*100 = 100/3 the claim demands. -/
theorem c8_counterexample :
    (getLogStats [⟨"", "", "success", "", ""⟩, ⟨"", "", "failed", "", ""⟩,
        ⟨"", "", "failed", "", ""⟩]).successful = 1 ∧
    (getLogStats [⟨"", "", "success", "", ""⟩, ⟨"", "", "failed", "", ""⟩,
        ⟨"", "", "failed", "", ""⟩]).total = 3 ∧
    (getLogStats [⟨"", "", "success", "", ""⟩, ⟨"", "", "failed", "", ""⟩,
        ⟨"", "", "failed", "", ""⟩]).successRate ≠ (1 : ℚ) / 3 * 100 := by
  refine ⟨by decide, by decide, ?_⟩
  have hs : (List.filter (fun e => e.status == "success")
      [(⟨"", "", "success", "", ""⟩ : LogEntry), ⟨"", "", "failed", "", ""⟩,
        ⟨"", "", "failed", "", ""⟩]).length = 1 := by decide
  simp only [getLogStats, hs]
  norm_num [jsRound]

/-- C8 (amended): getLogStats returns total = number of entries,
    successful = number of entries with status success, failed as the
    difference, and successRate equal to successful/total*100 rounded to two
    decimal places (0 when total = 0, 100 when every entry is a success). -/
theorem c8_stats_rounded (logData : List LogEntry) :
    (getLogStats logData).total = logData.length ∧
    (getLogStats logData).successful =
      (logData.filter (fun e => e.status == "success")).length ∧
    (getLogStats logData).failed =
      logData.length - (logData.filter (fun e => e.status == "success")).length ∧
    (getLogStats logData).successRate =
      (if 0 < logData.length then
        roundTo2 (((logData.filter (fun e => e.status == "success")).length : ℚ) /
          (logData.length : ℚ) * 100)
      else 0) ∧
    (logData = [] → (getLogStats logData).successRate = 0) ∧
    (0 < logData.length → (∀ e ∈ logData, e.status = "success") →
      (getLogStats logData).successRate = 100) := by
  refine ⟨rfl, rfl, rfl, rfl, ?_, ?_⟩
  · intro h; subst h; rfl
  · intro hpos hall
    have hfilter : logData.filter (fun e => e.status == "success") = logData := by
      rw [List.filter_eq_self]
      intro a ha
      exact decide_eq_true (hall a ha)
    have hne : ((logData.length : ℚ)) ≠ 0 := by
      exact_mod_cast Nat.pos_iff_ne_zero.mp hpos
    simp only [getLogStats, hfilter, if_pos hpos]
    rw [div_self hne]
    norm_num [jsRound]

/-- C10: for every list of log entries, including entries whose status is
    neither success nor failed, getLogStats satisfies
    successful + failed = total, with failed counting exactly the entries
    whose status is not the string success. -/
theorem c10_stats_invariant (logData : List LogEntry) :
    (getLogStats logData).successful + (getLogStats logData).failed =
      (getLogStats logData).total ∧
    (getLogStats logData).failed =
      (logData.filter (fun e => !(e.status == "success"))).length := by
  have hsplit := List.length_eq_length_filter_add
    (l := logData) (fun e => e.status == "success")
  constructor
  · show (logData.filter (fun e => e.status == "success")).length +
      (logData.length - (logData.filter (fun e => e.status == "success")).length) =
        logData.length
    omega
  · show logData.length - (logData.filter (fun e => e.status == "success")).length =
      (logData.filter (fun e => !(e.status == "success"))).length
    omega

/-! ## Claim C6: the placeholder renderer -/

/-- C6: for every template string presented as literal runs and placeholders
    (identifiers of word characters inside braces) and every string-valued
    data mapping, processTemplate replaces every placeholder occurrence with
    the mapped value, and with the empty string exactly when the identifier
    is absent; repeated and multiple distinct placeholders are all
    substituted; null, undefined and non-string templates are returned
    unchanged. -/
theorem c6_render_placeholders (segs : List Seg) (ctx : Ctx)
    (h : ∀ seg ∈ segs, seg.ok) :
    processTemplate (.str (flatSegs segs)) ctx = .str (renderSegs segs ctx) ∧
    processTemplate .null ctx = .null ∧
    processTemplate .undefined ctx = .undefined ∧
    (∀ n : Int, processTemplate (.num n) ctx = .num n) ∧
    (∀ b : Bool, processTemplate (.bool b) ctx = .bool b) :=
  ⟨congrArg JSVal.str (substStr_segs ctx segs h), rfl, rfl, fun _ => rfl, fun _ => rfl⟩

/-- C6 witness: the round-trip example of the spec, with a repeated
    placeholder thrown in. -/
theorem c6_render_placeholders_witness :
    processTemplate
        (.str (flatSegs [Seg.ph "first_name", Seg.lit ", hello ", Seg.ph "first_name",
          Seg.lit " ", Seg.ph "last_name", Seg.lit "!"]))
        (fun k => if k = "first_name" then some "John" else none) =
      .str (renderSegs [Seg.ph "first_name", Seg.lit ", hello ", Seg.ph "first_name",
          Seg.lit " ", Seg.ph "last_name", Seg.lit "!"]
        (fun k => if k = "first_name" then some "John" else none)) ∧
    flatSegs [Seg.ph "first_name", Seg.lit ", hello ", Seg.ph "first_name",
        Seg.lit " ", Seg.ph "last_name", Seg.lit "!"] =
      "{first_name}, hello {first_name} {last_name}!" ∧
    renderSegs [Seg.ph "first_name", Seg.lit ", hello ", Seg.ph "first_name",
        Seg.lit " ", Seg.ph "last_name", Seg.lit "!"]
        (fun k => if k = "first_name" then some "John" else none) =
      "John, hello John !" :=
  ⟨(c6_render_placeholders _ _ (by decide)).1, by decide, by decide⟩

/-! ## Token generator (confirmation-links.js, generateTokenForSubscriber)

The token is the first 32 hex characters of HMAC-SHA256 over the normalized
email, keyed with the configured secret (modelled at its hardcoded default).
SHA-256 and HMAC are implemented below over byte lists (Nat values < 256),
words being Nat values reduced mod 2^32. -/

/-- UTF-8 encoding of one code point, as bytes. -/
def utf8Bytes (n : Nat) : List Nat :=
  if n < 128 then [n]
  else if n < 2048 then [192 + n / 64, 128 + n % 64]
  else if n < 65536 then [224 + n / 4096, 128 + n / 64 % 64, 128 + n % 64]
  else [240 + n / 262144, 128 + n / 4096 % 64, 128 + n / 64 % 64, 128 + n % 64]

/-- UTF-8 bytes of a string, as Node Buffer.from(s, "utf8") produces. -/
def strBytes (s : String) : List Nat :=
  s.data.foldr (fun c acc => utf8Bytes c.toNat ++ acc) []

/-- Reduction to a 32-bit word. -/
def w32 (n : Nat) : Nat := n % 4294967296

/-- Logical right shift on a 32-bit word. -/
def shr32 (n x : Nat) : Nat := x / 2 ^ n

/-- Right rotation on a 32-bit word. -/
def rotr32 (n x : Nat) : Nat := w32 (x / 2 ^ n + x * 2 ^ (32 - n))

/-- Bitwise complement on a 32-bit word. -/
def bnot32 (x : Nat) : Nat := 4294967295 - x

def shaCh (x y z : Nat) : Nat := (x &&& y) ^^^ (bnot32 x &&& z)

def shaMaj (x y z : Nat) : Nat := (x &&& y) ^^^ (x &&& z) ^^^ (y &&& z)

def shaBigSigma0 (x : Nat) : Nat := rotr32 2 x ^^^ rotr32 13 x ^^^ rotr32 22 x

def shaBigSigma1 (x : Nat) : Nat := rotr32 6 x ^^^ rotr32 11 x ^^^ rotr32 25 x

def shaSmallSigma0 (x : Nat) : Nat := rotr32 7 x ^^^ rotr32 18 x ^^^ shr32 3 x

def shaSmallSigma1 (x : Nat) : Nat := rotr32 17 x ^^^ rotr32 19 x ^^^ shr32 10 x

/-- The SHA-256 round constants. -/
def sha256K : List Nat :=
  [1116352408, 1899447441, 3049323471, 3921009573, 961987163,
   1508970993, 2453635748, 2870763221, 3624381080, 310598401,
   607225278, 1426881987, 1925078388, 2162078206, 2614888103,
   3248222580, 3835390401, 4022224774, 264347078, 604807628,
   770255983, 1249150122, 1555081692, 1996064986, 2554220882,
   2821834349, 2952996808, 3210313671, 3336571891, 3584528711,
   113926993, 338241895, 666307205, 773529912, 1294757372,
   1396182291, 1695183700, 1986661051, 2177026350, 2456956037,
   2730485921, 2820302411, 3259730800, 3345764771, 3516065817,
   3600352804, 4094571909, 275423344, 430227734, 506948616,
   659060556, 883997877, 958139571, 1322822218, 1537002063,
   1747873779, 1955562222, 2024104815, 2227730452, 2361852424,
   2428436474, 2756734187, 3204031479, 3329325298]

/-- The SHA-256 initial hash value. -/
def sha256H0 : List Nat :=
  [1779033703, 3144134277, 1013904242, 2773480762,
   1359893119, 2600822924, 528734635, 1541459225]

/-- Big-endian 8-byte encoding of a length in bits. -/
def be8 (n : Nat) : List Nat :=
  [n / 2 ^ 56 % 256, n / 2 ^ 48 % 256, n / 2 ^ 40 % 256, n / 2 ^ 32 % 256,
   n / 2 ^ 24 % 256, n / 2 ^ 16 % 256, n / 2 ^ 8 % 256, n % 256]

/-- SHA-256 message padding: a 0x80 byte, zeros to 56 mod 64, then the
    bit length, big-endian. -/
def sha256Pad (msg : List Nat) : List Nat :=
  msg ++ 128 :: List.replicate ((120 - (msg.length + 1) % 64) % 64) 0 ++ be8 (8 * msg.length)

/-- Group bytes into big-endian 32-bit words. -/
def bytesToWords : List Nat → List Nat
  | b0 :: b1 :: b2 :: b3 :: rest =>
    (b0 * 16777216 + b1 * 65536 + b2 * 256 + b3) :: bytesToWords rest
  | _ => []

/-- Big-endian bytes of one 32-bit word. -/
def wordToBytes (w : Nat) : List Nat :=
  [w / 16777216 % 256, w / 65536 % 256, w / 256 % 256, w % 256]

/-- Split a byte list into 64-byte blocks. -/
def chunks64 : List Nat → List (List Nat)
  | [] => []
  | b :: rest => (b :: rest).take 64 :: chunks64 ((b :: rest).drop 64)
  termination_by l => l.length
  decreasing_by simp [List.length_drop]; omega

/-- Extend the 16 block words to the 64-entry message schedule. -/
def sha256Schedule (block16 : List Nat) : List Nat :=
  (List.range 48).foldl
    (fun acc _ =>
      let n := acc.length
      acc ++ [w32 (acc.getD (n - 16) 0 + shaSmallSigma0 (acc.getD (n - 15) 0) +
        acc.getD (n - 7) 0 + shaSmallSigma1 (acc.getD (n - 2) 0))])
    block16

/-- One SHA-256 compression of a 64-byte block into the running hash. -/
def sha256Compress (h : List Nat) (block : List Nat) : List Nat :=
  let ws := sha256Schedule (bytesToWords block)
  let final := (List.zip sha256K ws).foldl
    (fun st kw =>
      match st with
      | [a, b, c, d, e, f, g, hh] =>
        let t1 := w32 (hh + shaBigSigma1 e + shaCh e f g + kw.1 + kw.2)
        let t2 := w32 (shaBigSigma0 a + shaMaj a b c)
        [w32 (t1 + t2), a, b, c, w32 (d + t1), e, f, g]
      | other => other) h
  List.zipWith (fun x y => w32 (x + y)) h final

/-- SHA-256 of a byte list, as 32 bytes. -/
def sha256Bytes (msg : List Nat) : List Nat :=
  ((chunks64 (sha256Pad msg)).foldl sha256Compress sha256H0).foldr
    (fun w acc => wordToBytes w ++ acc) []

/-- HMAC-SHA256 over byte lists (crypto.createHmac("sha256", key)). -/
def hmacSha256 (key msg : List Nat) : List Nat :=
  let k1 := if 64 < key.length then sha256Bytes key else key
  let k0 := k1 ++ List.replicate (64 - k1.length) 0
  sha256Bytes ((k0.map (fun b => b ^^^ 92)) ++
    sha256Bytes ((k0.map (fun b => b ^^^ 54)) ++ msg))

/-- One lowercase hex digit. -/
def hexDigit (n : Nat) : Char :=
  if n < 10 then Char.ofNat (48 + n) else Char.ofNat (87 + n)

/-- Lowercase hex encoding of a byte list (hmac.digest("hex")). -/
def bytesToHex (bs : List Nat) : String :=
  String.mk (bs.foldr (fun b acc => hexDigit (b / 16) :: hexDigit (b % 16) :: acc) [])

/-- The CONFIRMATION_SECRET default of confirmation-links.js. -/
def SECRET_KEY : String := "default-secret-key-change-in-production"

/-- generateTokenForSubscriber from confirmation-links.js: fail when the
    subscriber has no (truthy) email; otherwise lower-case and trim the
    email, HMAC-SHA256 it under the secret key, hex-encode, and keep the
    first 32 characters. -/
def generateTokenForSubscriber (subscriber : Row) : Except String String :=
  let emailOpt := lookupField subscriber "email"
  if !truthy emailOpt then Except.error "Subscriber must have an email address"
  else
    let email := jsTrim (jsToLower (emailOpt.getD ""))
    Except.ok (String.mk
      ((bytesToHex (hmacSha256 (strBytes SECRET_KEY) (strBytes email))).data.take 32))

/-! ## Claim C7: token determinism and normalization -/

/-- C7: the token generator is a pure function (two calls on the same
    subscriber agree), and any two emails that agree after lower-casing and
    trimming receive the same token, since the HMAC input is exactly the
    normalized email. -/
theorem c7_token_normalization (e1 e2 : String) (h1 : e1 ≠ "") (h2 : e2 ≠ "")
    (h : jsTrim (jsToLower e1) = jsTrim (jsToLower e2)) :
    generateTokenForSubscriber [("email", e1)] = generateTokenForSubscriber [("email", e2)] ∧
    (∀ s : Row, generateTokenForSubscriber s = generateTokenForSubscriber s) := by
  refine ⟨?_, fun _ => rfl⟩
  have l1 : lookupField [("email", e1)] "email" = some e1 := rfl
  have l2 : lookupField [("email", e2)] "email" = some e2 := rfl
  have t1 : truthy (some e1) = true := by simp [truthy, h1]
  have t2 : truthy (some e2) = true := by simp [truthy, h2]
  simp only [generateTokenForSubscriber, l1, l2, t1, t2, Bool.not_true, Bool.false_eq_true,
    if_false, Option.getD_some]
  rw [h]

/-- C7 witness: the spec's concrete instance, where the two emails differ
    only in case and surrounding whitespace. -/
theorem c7_token_normalization_witness :
    generateTokenForSubscriber [("email", " Test@Example.com ")] =
      generateTokenForSubscriber [("email", "test@example.com")] :=
  (c7_token_normalization " Test@Example.com " "test@example.com"
    (by decide) (by decide) (by decide)).1

/-! ## processTemplateForSubscriber (template-processor.js) -/

/-- One uppercase hex digit, for percent-encoding. -/
def hexDigitUpper (n : Nat) : Char :=
  if n < 10 then Char.ofNat (48 + n) else Char.ofNat (55 + n)

/-- Characters encodeURIComponent leaves as-is: ASCII alphanumerics and
    minus, underscore, dot, exclamation, tilde, asterisk, apostrophe,
    parentheses (by code point). -/
def uriUnreserved (c : Char) : Bool :=
  isAlnumA c || [45, 95, 46, 33, 126, 42, 39, 40, 41].contains c.toNat

/-- encodeURIComponent: unreserved characters kept, all others
    percent-encoded byte by byte in UTF-8, uppercase hex. -/
def encodeURIComponent (s : String) : String :=
  String.mk (s.data.foldr
    (fun c acc =>
      if uriUnreserved c then c :: acc
      else (utf8Bytes c.toNat).foldr
        (fun b acc2 => Char.ofNat 37 :: hexDigitUpper (b / 16) :: hexDigitUpper (b % 16) :: acc2)
        acc)
    [])

/-- The data context of a plain JavaScript object. -/
def ctxOfRow (r : Row) : Ctx := fun k => lookupField r k

/-- Object spread adding one key: later keys override earlier ones. -/
def ctxSet (c : Ctx) (k : String) (v : Option String) : Ctx :=
  fun q => if q = k then v else c q

/-- The email template object, fields absent when the JSON file omits them. -/
structure Template where
  subject : Option String
  text : Option String
  html : Option String
  confirmationUrl : Option String
  headers : Option (List (String × String))
  deriving DecidableEq, Repr

/-- Present an optional string field to processTemplate as a JS value. -/
def optStr : Option String → JSVal
  | some s => .str s
  | none => .undefined

/-- Read a processTemplate result back as a string-or-undefined value. -/
def jsvalToOptStr : JSVal → Option String
  | .str s => some s
  | _ => none

/-- The templateData object: subscriber fields, then confirmation_token,
    then email (re-set to the subscriber's own email). -/
def ptfsBaseCtx (subscriber : Row) (token : String) : Ctx :=
  ctxSet (ctxSet (ctxOfRow subscriber) "confirmation_token" (some token))
    "email" (lookupField subscriber "email")

/-- The context used to render confirmationUrl: as templateData, but with
    email percent-encoded (encodeURIComponent of undefined is the string
    "undefined", by JavaScript string coercion). -/
def ptfsUrlCtx (subscriber : Row) (token : String) : Ctx :=
  ctxSet (ptfsBaseCtx subscriber token) "email"
    (some (match lookupField subscriber "email" with
           | some e => encodeURIComponent e
           | none => "undefined"))

/-- The fullTemplateData object: templateData plus the rendered
    confirmation_url. -/
def ptfsFullCtx (t : Template) (subscriber : Row) (token : String) : Ctx :=
  ctxSet (ptfsBaseCtx subscriber token) "confirmation_url"
    (jsvalToOptStr (processTemplate (optStr t.confirmationUrl) (ptfsUrlCtx subscriber token)))

/-- The object processTemplateForSubscriber returns: subject and text keys
    always present (possibly undefined), html key only when set. -/
structure RenderedEmail where
  subject : Option String
  text : Option String
  html : Option String
  deriving DecidableEq, Repr

/-- processTemplateForSubscriber from template-processor.js: render
    confirmationUrl under the URL-encoding context, extend the data with it,
    render subject and text, and render html only when the template has a
    truthy html field. -/
def processTemplateForSubscriber (t : Template) (subscriber : Row) (token : String) :
    RenderedEmail :=
  let fullCtx := ptfsFullCtx t subscriber token
  { subject := jsvalToOptStr (processTemplate (optStr t.subject) fullCtx),
    text := jsvalToOptStr (processTemplate (optStr t.text) fullCtx),
    html := match t.html with
      | some s => if s = "" then none else some (substStr s fullCtx)
      | none => none }

/-! ## Claim C9: html omission -/

/-- C9: for every template without an html field, every subscriber and every
    token, processTemplateForSubscriber yields no html key at all, while
    subject and text are rendered against the fully assembled context. -/
theorem c9_html_omitted (t : Template) (subscriber : Row) (token : String)
    (h : t.html = none) :
    (processTemplateForSubscriber t subscriber token).html = none ∧
    (processTemplateForSubscriber t subscriber token).subject =
      jsvalToOptStr (processTemplate (optStr t.subject) (ptfsFullCtx t subscriber token)) ∧
    (processTemplateForSubscriber t subscriber token).text =
      jsvalToOptStr (processTemplate (optStr t.text) (ptfsFullCtx t subscriber token)) := by
  refine ⟨?_, rfl, rfl⟩
  simp [processTemplateForSubscriber, h]

/-- C9 witness: the text-only template of the test suite. -/
theorem c9_html_omitted_witness :
    (processTemplateForSubscriber
        { subject := some "Welcome {first_name}!", text := some "Hello {first_name}",
          html := none,
          confirmationUrl := some "https://example.com/confirm?token={confirmation_token}",
          headers := none }
        [("email", "test@example.com"), ("first_name", "Test")] "token123").html = none ∧
    (processTemplateForSubscriber
        { subject := some "Welcome {first_name}!", text := some "Hello {first_name}",
          html := none,
          confirmationUrl := some "https://example.com/confirm?token={confirmation_token}",
          headers := none }
        [("email", "test@example.com"), ("first_name", "Test")] "token123").subject =
      some "Welcome Test!" :=
  ⟨(c9_html_omitted _ _ _ rfl).1, by decide⟩

/-! ## Mailgun client (mailgun-client.js): sendEmail and sendBulkEmails -/

/-- The validated client configuration (createMailgunClient output). -/
structure MgClient where
  fromName : String
  fromEmail : String
  domain : String
  apiKey : String
  deriving DecidableEq, Repr

/-- The emailData object handed to sendEmail.  The source's to field is
    named toAddr here, since to is a Lean keyword. -/
structure EmailData where
  toAddr : Option String
  subject : Option String
  text : Option String
  html : Option String
  headers : Option (List (String × String))
  deriving DecidableEq, Repr

/-- The messageData object handed to mailgun.messages.create; custom headers
    appear under h:-prefixed keys.  The source's from and to fields are named
    fromAddr and toAddr here, since both are Lean keywords. -/
structure MessageData where
  fromAddr : String
  toAddr : Option String
  subject : Option String
  text : Option String
  html : Option String
  headers : List (String × String)
  deriving DecidableEq, Repr

/-- A successful response of the external provider. -/
structure MgResponse where
  id : String
  message : String
  deriving DecidableEq, Repr

/-- The external collaborator mailgun.messages.create(domain, messageData);
    an error value is a rejected promise with that error message. -/
def Oracle := String → MessageData → Except String MgResponse

/-- What sendEmail returns: success with messageId and response, or failure
    with an error message. -/
structure SendCore where
  success : Bool
  messageId : Option String
  response : Option String
  error : Option String
  deriving DecidableEq, Repr

/-- A bulk-send item result: the sendEmail outcome spread after the
    subscriber email. -/
structure SendResult where
  email : Option String
  success : Bool
  messageId : Option String
  response : Option String
  error : Option String
  deriving DecidableEq, Repr

/-- validateEmailData from mailgun-client.js, errors as thrown messages. -/
def validateEmailData (e : EmailData) : Except String Unit :=
  if !truthy e.toAddr then Except.error "Recipient email is required"
  else if !validateEmail e.toAddr then Except.error "Invalid recipient email format"
  else if !truthy e.subject then Except.error "Email subject is required"
  else if !truthy e.text && !truthy e.html then
    Except.error "Either text or html content is required"
  else Except.ok ()

/-- The messageData built by sendEmail before calling the provider. -/
def mkMessageData (client : MgClient) (e : EmailData) : MessageData :=
  { fromAddr := client.fromName ++ " <" ++ client.fromEmail ++ ">",
    toAddr := e.toAddr, subject := e.subject, text := e.text, html := e.html,
    headers := (e.headers.getD []).map (fun p => ("h:" ++ p.1, p.2)) }

/-- sendEmail from mailgun-client.js: validation errors and provider
    rejections are both caught and returned as success=false with the
    error message. -/
def sendEmail (oracle : Oracle) (client : MgClient) (emailData : EmailData) : SendCore :=
  match validateEmailData emailData with
  | .error msg => { success := false, messageId := none, response := none, error := some msg }
  | .ok _ =>
    match oracle client.domain (mkMessageData client emailData) with
    | .ok resp =>
      { success := true, messageId := some resp.id, response := some resp.message,
        error := none }
    | .error msg => { success := false, messageId := none, response := none, error := some msg }

/-- The local processTemplate of mailgun-client.js (lines 180-186): any falsy
    template (undefined or the empty string) is returned unchanged. -/
def mgProcessTemplate (template : Option String) (ctx : Ctx) : Option String :=
  match template with
  | none => none
  | some s => if s = "" then some s else some (substStr s ctx)

/-- The processedEmail object built in the sendBulkEmails loop: subject, text
    and html rendered with the subscriber object alone as the data context,
    headers copied from the template when present. -/
def processedEmailFor (t : Template) (s : Row) : EmailData :=
  { toAddr := lookupField s "email",
    subject := mgProcessTemplate t.subject (ctxOfRow s),
    text := mgProcessTemplate t.text (ctxOfRow s),
    html := mgProcessTemplate t.html (ctxOfRow s),
    headers := t.headers }

/-- One loop iteration's pushed result: the subscriber email spread with the
    sendEmail outcome. -/
def bulkItemResult (client : MgClient) (oracle : Oracle) (t : Template) (s : Row) :
    SendResult :=
  let core := sendEmail oracle client (processedEmailFor t s)
  { email := lookupField s "email", success := core.success, messageId := core.messageId,
    response := core.response, error := core.error }

/-- A progress-callback invocation, were one to happen. -/
structure ProgressData where
  current : Nat
  total : Nat
  result : SendResult
  percentage : ℚ

/-- The options object of sendBulkEmails; the callback itself is irrelevant
    to the dispatcher (see sendBulkEmails), so only its presence is kept. -/
structure BulkOptions where
  rateLimit : Option ℚ
  hasOnProgress : Bool

/-- The observable trace of one sendBulkEmails run: the returned results,
    the awaited inter-item delays in milliseconds, the processedEmail
    payloads handed to sendEmail, and the progress-callback invocations. -/
structure BulkOutput where
  results : List SendResult
  delays : List ℚ
  sent : List EmailData
  progressCalls : List ProgressData

/-- The for loop of sendBulkEmails: process the subscriber, push the result,
    and await the delay unless this was the last item.  The source
    destructures only rateLimit from its options and never invokes
    options.onProgress, so no progress invocation is ever recorded. -/
def sendBulkLoop (client : MgClient) (oracle : Oracle) (t : Template) (dly : ℚ) :
    List Row → BulkOutput
  | [] => { results := [], delays := [], sent := [], progressCalls := [] }
  | s :: rest =>
    let tail := sendBulkLoop client oracle t dly rest
    { results := bulkItemResult client oracle t s :: tail.results,
      delays := if rest.isEmpty then tail.delays else dly :: tail.delays,
      sent := processedEmailFor t s :: tail.sent,
      progressCalls := tail.progressCalls }

/-- sendBulkEmails from mailgun-client.js: rateLimit defaults to 10 items
    per second, the inter-item delay is 1000/rateLimit milliseconds. -/
def sendBulkEmails (client : MgClient) (subscribers : List Row) (t : Template)
    (options : BulkOptions) (oracle : Oracle) : BulkOutput :=
  let rateLimit := options.rateLimit.getD 10
  let delayBetweenEmails := 1000 / rateLimit
  sendBulkLoop client oracle t delayBetweenEmails subscribers

lemma sendBulkLoop_results (client : MgClient) (oracle : Oracle) (t : Template) (dly : ℚ)
    (subs : List Row) :
    (sendBulkLoop client oracle t dly subs).results =
      subs.map (bulkItemResult client oracle t) := by
  induction subs with
  | nil => rfl
  | cons s rest ih => simp [sendBulkLoop, ih]

lemma sendBulkLoop_delays (client : MgClient) (oracle : Oracle) (t : Template) (dly : ℚ)
    (subs : List Row) :
    (sendBulkLoop client oracle t dly subs).delays =
      List.replicate (subs.length - 1) dly := by
  induction subs with
  | nil => rfl
  | cons s rest ih =>
    cases rest with
    | nil => rfl
    | cons s2 rest2 =>
      have h : (sendBulkLoop client oracle t dly (s :: s2 :: rest2)).delays =
          dly :: (sendBulkLoop client oracle t dly (s2 :: rest2)).delays := rfl
      rw [h, ih]
      simp [List.replicate_succ]

lemma sendBulkLoop_progressCalls (client : MgClient) (oracle : Oracle) (t : Template)
    (dly : ℚ) (subs : List Row) :
    (sendBulkLoop client oracle t dly subs).progressCalls = [] := by
  induction subs with
  | nil => rfl
  | cons s rest ih => simpa [sendBulkLoop] using ih

/-! ## Concrete fixtures for the bulk-send claims -/

def demoClient : MgClient :=
  { fromName := "Mailer", fromEmail := "noreply@example.com",
    domain := "mg.example.com", apiKey := "key-123" }

def demoTemplate : Template :=
  { subject := some "Welcome {first_name}!",
    text := some "Please confirm: {confirmation_url}",
    html := none,
    confirmationUrl :=
      some "https://example.com/confirm?token={confirmation_token}&email={email}",
    headers := none }

/-- A provider that accepts every message. -/
def demoOracle : Oracle := fun _ _ => Except.ok { id := "<msg-1>", message := "Queued." }

/-- A provider that rejects exactly the message addressed to Jane. -/
def failJaneOracle : Oracle := fun _ md =>
  if md.toAddr = some "jane@example.com" then Except.error "Mailgun rejected the message"
  else Except.ok { id := "<msg-ok>", message := "Queued." }

def subJohn : Row := [("email", "john@example.com"), ("first_name", "John")]

def subJane : Row := [("email", "jane@example.com")]

def subBob : Row := [("email", "bob@example.com")]

def subsFive : List Row :=
  [[("email", "a@example.com")], [("email", "b@example.com")], [("email", "c@example.com")],
   [("email", "d@example.com")], [("email", "e@example.com")]]

/-! ## Claim C1: the dispatcher drops the confirmation context (code bug) -/

/-- C1 (evidence of the bug): sendBulkEmails renders the template with the
    subscriber object as the only data context, never computing a token, so
    the confirmation_url placeholder in the message it hands to the provider
    becomes the empty string; rendering the same template for the same
    subscriber through processTemplateForSubscriber (section 4.3) produces
    the full confirmation link. -/
theorem c1_bulk_send_drops_confirmation :
    (sendBulkEmails demoClient [subJohn] demoTemplate
        { rateLimit := some 10, hasOnProgress := false } demoOracle).sent.map
      EmailData.text = [some "Please confirm: "] ∧
    (processTemplateForSubscriber demoTemplate subJohn "abc123").text =
      some
        "Please confirm: https://example.com/confirm?token=abc123&email=john%40example.com" := by
  exact ⟨by decide, by decide⟩

/-! ## Claim C2: the progress callback is never invoked (code bug) -/

/-- C2 (evidence of the bug): sendBulkEmails destructures only rateLimit from
    its options and never calls options.onProgress, so a run over one
    subscriber with a callback supplied produces one result and zero
    progress invocations, not one invocation per item. -/
theorem c2_onprogress_never_invoked :
    (∀ (client : MgClient) (subs : List Row) (t : Template) (opts : BulkOptions)
      (oracle : Oracle), (sendBulkEmails client subs t opts oracle).progressCalls = []) ∧
    (sendBulkEmails demoClient [subJohn] demoTemplate
        { rateLimit := some 10, hasOnProgress := true } demoOracle).results.length = 1 ∧
    (sendBulkEmails demoClient [subJohn] demoTemplate
        { rateLimit := some 10, hasOnProgress := true } demoOracle).progressCalls.length =
      0 := by
  refine ⟨?_, by decide, by decide⟩
  intro client subs t opts oracle
  exact sendBulkLoop_progressCalls client oracle t _ subs

/-! ## Claim C3: order preservation and failure isolation -/

/-- C3: sendBulkEmails returns one result per subscriber in input order (the
    run is the pointwise map of the per-item send, so no failure aborts it),
    and an item whose provider call is rejected yields success false with
    the rejection message as its error, alongside its subscriber email. -/
theorem c3_failure_isolation (client : MgClient) (oracle : Oracle) (t : Template)
    (options : BulkOptions) (subs : List Row) :
    (sendBulkEmails client subs t options oracle).results =
      subs.map (bulkItemResult client oracle t) ∧
    (sendBulkEmails client subs t options oracle).results.length = subs.length ∧
    (∀ (s : Row) (msg : String),
      validateEmailData (processedEmailFor t s) = Except.ok () →
      oracle client.domain (mkMessageData client (processedEmailFor t s)) =
        Except.error msg →
      (bulkItemResult client oracle t s).email = lookupField s "email" ∧
      (bulkItemResult client oracle t s).success = false ∧
      (bulkItemResult client oracle t s).error = some msg) := by
  refine ⟨sendBulkLoop_results client oracle t _ subs, ?_, ?_⟩
  · rw [show (sendBulkEmails client subs t options oracle).results =
      subs.map (bulkItemResult client oracle t) from
        sendBulkLoop_results client oracle t _ subs]
    exact List.length_map subs _
  · intro s msg hval horacle
    refine ⟨rfl, ?_, ?_⟩ <;> simp [bulkItemResult, sendEmail, hval, horacle]

/-- C3 witness: three subscribers, the provider failing on the second; the
    batch still returns three results, in order, with successes around the
    failure. -/
theorem c3_failure_isolation_witness :
    (sendBulkEmails demoClient [subJohn, subJane, subBob] demoTemplate
        { rateLimit := some 10, hasOnProgress := false } failJaneOracle).results =
      [subJohn, subJane, subBob].map
        (bulkItemResult demoClient failJaneOracle demoTemplate) ∧
    (bulkItemResult demoClient failJaneOracle demoTemplate subJane).success = false ∧
    (bulkItemResult demoClient failJaneOracle demoTemplate subJane).error =
      some "Mailgun rejected the message" ∧
    (sendBulkEmails demoClient [subJohn, subJane, subBob] demoTemplate
        { rateLimit := some 10, hasOnProgress := false } failJaneOracle).results.map
      SendResult.success = [true, false, true] := by
  refine ⟨(c3_failure_isolation demoClient failJaneOracle demoTemplate
      { rateLimit := some 10, hasOnProgress := false } [subJohn, subJane, subBob]).1,
    ?_, ?_, by decide⟩
  · exact ((c3_failure_isolation demoClient failJaneOracle demoTemplate
      { rateLimit := some 10, hasOnProgress := false } [subJohn, subJane, subBob]).2.2
      subJane "Mailgun rejected the message" rfl rfl).2.1
  · exact ((c3_failure_isolation demoClient failJaneOracle demoTemplate
      { rateLimit := some 10, hasOnProgress := false } [subJohn, subJane, subBob]).2.2
      subJane "Mailgun rejected the message" rfl rfl).2.2

/-! ## Claim C4: rate-limit delays -/

/-- C4: for at least one subscriber and a positive rate limit, sendBulkEmails
    awaits exactly length-1 inter-item delays of 1000/rateLimit milliseconds
    each, none after the final item. -/
theorem c4_rate_limit_delays (client : MgClient) (oracle : Oracle) (t : Template)
    (subs : List Row) (rl : ℚ) (hasProg : Bool)
    (_hn : 1 ≤ subs.length) (_hrl : 0 < rl) :
    (sendBulkEmails client subs t { rateLimit := some rl, hasOnProgress := hasProg }
        oracle).delays =
      List.replicate (subs.length - 1) (1000 / rl) :=
  sendBulkLoop_delays client oracle t (1000 / rl) subs

/-- C4 witness: five subscribers at rateLimit 10 incur exactly four delays of
    1000/10 = 100 milliseconds. -/
theorem c4_rate_limit_delays_witness :
    (sendBulkEmails demoClient subsFive demoTemplate
        { rateLimit := some 10, hasOnProgress := false } demoOracle).delays =
      List.replicate 4 ((1000 : ℚ) / 10) :=
  c4_rate_limit_delays demoClient demoOracle demoTemplate subsFive 10 false
    (by decide) (by simp)

/-- C8 witness: a log of five successes has a computed success rate of
    exactly 100. -/
theorem c8_stats_rounded_witness :
    (getLogStats [⟨"", "", "success", "", ""⟩, ⟨"", "", "success", "", ""⟩,
      ⟨"", "", "success", "", ""⟩, ⟨"", "", "success", "", ""⟩,
      ⟨"", "", "success", "", ""⟩]).successRate = 100 :=
  (c8_stats_rounded [⟨"", "", "success", "", ""⟩, ⟨"", "", "success", "", ""⟩,
      ⟨"", "", "success", "", ""⟩, ⟨"", "", "success", "", ""⟩,
      ⟨"", "", "success", "", ""⟩]).2.2.2.2.2 (by decide) (by decide)
